import Mathlib

/-!
Verification development for the resilience core of the datatourisme repository:
the circuit-breaker state machine (src/tourism/circuit_breaker.py), the
search orchestrator with database fallback (src/tourism/search.py) and the
cache key/get layer (src/tourism/cache.py).

Modelling conventions:
- Python `datetime` timestamps are modelled as `Int` seconds; the difference
  comparison `(now - last_failure_time).total_seconds() >= recovery_timeout`
  becomes integer arithmetic.
- The wrapped callable passed to `CircuitBreaker.call` is modelled by its
  observable outcome: it returns normally, raises an instance of the
  configured `expected_exception` type, or raises any other exception.
- Raising an exception is modelled by the `CallResult` value returned next to
  the updated breaker state: `rejected` models `raise CircuitBreakerError`
  before the callable runs, `raisedExpected` and `raisedUnexpected` model the
  re-raised exception of the callable itself.
-/

set_option maxRecDepth 10000

namespace Tourism

/-- States of the breaker, mirroring `CircuitState` (CLOSED, OPEN, HALF_OPEN). -/
inductive CircuitState where
  | closed
  | opened
  | halfOpen
deriving DecidableEq

/-- Mutable fields of the Python `CircuitBreaker` instance. -/
structure CircuitBreaker where
  failure_threshold : Nat
  recovery_timeout : Int
  failure_count : Nat
  last_failure_time : Option Int
  state : CircuitState
  success_count : Nat
  total_calls : Nat
deriving DecidableEq

/-- Observable behaviour of the wrapped callable inside `call`. -/
inductive Outcome where
  | success
  | expectedFailure
  | unexpectedFailure
deriving DecidableEq

/-- What `call` does after the bookkeeping: reject without invoking the
callable, return its value, or re-raise its (expected or unexpected) error. -/
inductive CallResult where
  | rejected
  | returned
  | raisedExpected
  | raisedUnexpected
deriving DecidableEq

/-- Number of times the wrapped callable was invoked by one `call`. -/
def CallResult.invocations : CallResult → Nat
  | .rejected => 0
  | _ => 1

/-- `CircuitBreaker._should_attempt_reset`. -/
def CircuitBreaker.should_attempt_reset (b : CircuitBreaker) (now : Int) : Bool :=
  match b.last_failure_time with
  | none => true
  | some t => b.recovery_timeout ≤ now - t

/-- `CircuitBreaker._on_success`. -/
def CircuitBreaker.on_success (b : CircuitBreaker) : CircuitBreaker :=
  let b := { b with success_count := b.success_count + 1 }
  match b.state with
  | .halfOpen => { b with state := .closed, failure_count := 0 }
  | .closed => { b with failure_count := 0 }
  | .opened => b

/-- `CircuitBreaker._on_failure` (the threshold test uses the incremented
failure count, as in the Python post-increment check). -/
def CircuitBreaker.on_failure (b : CircuitBreaker) (now : Int) : CircuitBreaker :=
  let b := { b with failure_count := b.failure_count + 1, last_failure_time := some now }
  match b.state with
  | .halfOpen => { b with state := .opened }
  | _ =>
    if b.failure_threshold ≤ b.failure_count then { b with state := .opened } else b

/-- First half of `CircuitBreaker.call`: increment `total_calls`, and when the
breaker is OPEN either move it to HALF_OPEN (recovery due) or refuse the call.
Returns the updated breaker and whether the callable is admitted. -/
def CircuitBreaker.admission (b : CircuitBreaker) (now : Int) : CircuitBreaker × Bool :=
  let b := { b with total_calls := b.total_calls + 1 }
  match b.state with
  | .opened =>
    if b.should_attempt_reset now then ({ b with state := .halfOpen }, true)
    else (b, false)
  | _ => (b, true)

/-- `CircuitBreaker.call`, given the outcome the wrapped callable would have. -/
def CircuitBreaker.call (b : CircuitBreaker) (now : Int) (o : Outcome) :
    CircuitBreaker × CallResult :=
  match b.admission now with
  | (b1, false) => (b1, .rejected)
  | (b1, true) =>
    match o with
    | .success => (b1.on_success, .returned)
    | .expectedFailure => (b1.on_failure now, .raisedExpected)
    | .unexpectedFailure => (b1, .raisedUnexpected)

/-- `CircuitBreaker.reset`. -/
def CircuitBreaker.reset (b : CircuitBreaker) : CircuitBreaker :=
  { b with state := .closed, failure_count := 0, last_failure_time := none }

/-- `CircuitBreaker.force_open`. -/
def CircuitBreaker.force_open (b : CircuitBreaker) (now : Int) : CircuitBreaker :=
  { b with state := .opened, last_failure_time := some now }

/-- The state of a freshly constructed breaker (`CircuitBreaker.__init__`). -/
def CircuitBreaker.init (threshold : Nat) (timeout : Int) : CircuitBreaker where
  failure_threshold := threshold
  recovery_timeout := timeout
  failure_count := 0
  last_failure_time := none
  state := .closed
  success_count := 0
  total_calls := 0

/-- Run one `call` per listed time, each with an expected-failure outcome. -/
def CircuitBreaker.failSeq (b : CircuitBreaker) (ts : List Int) : CircuitBreaker :=
  ts.foldl (fun acc t => (acc.call t .expectedFailure).1) b

/-- Run one `call` per listed time, each with an unexpected-error outcome. -/
def CircuitBreaker.unexpectedSeq (b : CircuitBreaker) (ts : List Int) : CircuitBreaker :=
  ts.foldl (fun acc t => (acc.call t .unexpectedFailure).1) b

/-- The public mutating operations of a breaker. -/
inductive BreakerOp where
  | call (now : Int) (o : Outcome)
  | reset
  | force_open (now : Int)

/-- Apply one public operation. -/
def CircuitBreaker.applyOp (b : CircuitBreaker) : BreakerOp → CircuitBreaker
  | .call now o => (b.call now o).1
  | .reset => b.reset
  | .force_open now => b.force_open now

/-- Apply a sequence of public operations. -/
def CircuitBreaker.runOps (b : CircuitBreaker) (ops : List BreakerOp) : CircuitBreaker :=
  ops.foldl CircuitBreaker.applyOp b

/-!
Search layer (src/tourism/search.py). External collaborators are abstracted:
PostgreSQL full-text matching, PostGIS distance computation and the whole
Elasticsearch engine are parameters of the model, not reimplemented. Float
scores and localized name/description formatting are omitted from hits; the
claims under verification do not mention them. Result ordering produced by
the database backend (rank, creation date) is left as the stored order; the
geo path keeps its explicit order-by-distance sort.

Raising is modelled with `Except String`: each search function returns
`Except String Resp`, and its Python try/except split is kept as a separate
body and handler definition. The metrics calls are part of the model:
`search.py` calls `ApplicationMetrics.increment_counter`, a method that does
not exist (src/tourism/metrics.py defines `increment_counter` only on
`MetricsCollector`, line 67; the `ApplicationMetrics` class at lines 365-438
has no such attribute and nothing installs one), so every such call raises
`AttributeError`. The `time_it` wrapper around these functions re-raises
(its `finally` block calls `MetricsCollector.record_timing`, which exists),
so the wrapper is transparent and is not modelled separately.
-/

/-- The message of the exception raised by looking up the missing
`increment_counter` attribute on the `ApplicationMetrics` class. -/
def attrErrorMsg : String :=
  "AttributeError: type object ApplicationMetrics has no attribute increment_counter"

/-- `ApplicationMetrics.increment_counter` as called throughout search.py:
the attribute does not exist on the class (metrics.py defines the method
only on `MetricsCollector`), so the call always raises `AttributeError`. -/
def ApplicationMetrics.increment_counter (_metric_name : String) (_value : Nat) :
    Except String Unit :=
  .error attrErrorMsg

/-- `ApplicationMetrics.record_search_operation` (metrics.py line 404): this
method does exist and succeeds (it records through the global
`MetricsCollector`). -/
def ApplicationMetrics.record_search_operation (_search_type : String)
    (_results_count : Nat) (_duration : Nat) : Except String Unit :=
  .ok ()

/-- The fields of `TouristicResource` used by the resilient search layer. -/
structure Resource where
  resource_id : Nat
  city : Option String
  resource_types : List String
  is_active : Bool
  creation_date : Int
deriving DecidableEq

/-- The filter dictionary accepted by `_apply_filters`; `none` models an
absent key. An empty Python dict is modelled as an absent `filters` argument
(both make `_apply_filters` a no-op). -/
structure Filters where
  resource_types : Option (List String) := none
  cities : Option (List String) := none
  is_active : Option Bool := none
  date_from : Option Int := none
  date_to : Option Int := none
deriving DecidableEq

/-- `DatabaseSearchFallback._apply_filters`: the `resource_types` and
`cities` branches also test Python truthiness (a present but empty list is
skipped), while the other three only test key presence. -/
def apply_filters (qs : List Resource) (f : Filters) : List Resource :=
  let qs := match f.resource_types with
    | some l => if l.isEmpty then qs else
        qs.filter (fun r => r.resource_types.any (fun t => l.contains t))
    | none => qs
  let qs := match f.cities with
    | some l => if l.isEmpty then qs else
        qs.filter (fun r => match r.city with
          | some c => l.contains c
          | none => false)
    | none => qs
  let qs := match f.is_active with
    | some v => qs.filter (fun r => r.is_active == v)
    | none => qs
  let qs := match f.date_from with
    | some d => qs.filter (fun r => d ≤ r.creation_date)
    | none => qs
  match f.date_to with
  | some d => qs.filter (fun r => r.creation_date ≤ d)
  | none => qs

/-- Increment the count of key `k` in an insertion-ordered association list,
mirroring `dict.get(k, 0) + 1` on a Python dict (insertion order kept). -/
def bump (m : List (String × Nat)) (k : String) : List (String × Nat) :=
  match m with
  | [] => [(k, 1)]
  | (k1, c) :: rest => if k1 = k then (k1, c + 1) :: rest else (k1, c) :: bump rest k

/-- Facet aggregation lists as returned by `_calculate_aggregations`. -/
structure Aggs where
  types : List (String × Nat)
  cities : List (String × Nat)
deriving DecidableEq

/-- Descending-by-count comparison used to model the stable
`sorted(..., key=count, reverse=True)`. -/
def byCountDesc (a b : String × Nat) : Prop := b.2 ≤ a.2

instance : DecidableRel byCountDesc := fun a b => Nat.decLe b.2 a.2

/-- `DatabaseSearchFallback._calculate_aggregations`: count resource types
(skipping records with a null/empty type array) and cities (skipping null and
empty-string cities), then keep the 20 largest counts of each. -/
def calculate_aggregations (qs : List Resource) : Aggs where
  types :=
    ((qs.foldl (fun m r =>
        if r.resource_types.isEmpty then m else r.resource_types.foldl bump m) []).insertionSort
      byCountDesc).take 20
  cities :=
    ((qs.foldl (fun m r =>
        match r.city with
        | some c => if c = "" then m else bump m c
        | none => m) []).insertionSort byCountDesc).take 20

/-- One formatted hit (`_format_database_hit`), restricted to the modelled
fields; `distance_km` is present only on the geo path. -/
structure Hit where
  resource_id : Nat
  city : Option String
  resource_types : List String
  creation_date : Int
  is_active : Bool
  distance_km : Option Int
deriving DecidableEq

/-- `DatabaseSearchFallback._format_database_hit`. -/
def format_database_hit (r : Resource) (dist : Option Int) : Hit where
  resource_id := r.resource_id
  city := r.city
  resource_types := r.resource_types
  creation_date := r.creation_date
  is_active := r.is_active
  distance_km := dist

/-- Which engine produced a result dict: the `source` value `elasticsearch`
is the primary engine, `database` the fallback engine (the spec calls these
`primary` and `fallback`). -/
inductive RespSource where
  | elasticsearch
  | database
deriving DecidableEq

/-- The result dictionary shape shared by both engines. Keys that a given
code path does not put in its dict are modelled as `none` / `false`
(`error`, `center`, `radius_km`, the `fallback` flag). -/
structure Resp where
  hits : List Hit
  total : Nat
  took : Nat
  aggregations : Aggs
  page : Nat
  page_size : Nat
  center : Option (Int × Int) := none
  radius_km : Option Int := none
  error : Option String := none
  fallback : Bool := false
  source : RespSource
deriving DecidableEq

/-- External collaborators of the fallback engine: the durable-store read
(which can raise, modelled by `Except.error`), the PostgreSQL full-text
match predicate, and the PostGIS distance (in km, `none` when the record has
no location). -/
structure FallbackEnv where
  resources : Except String (List Resource)
  text_match : String → Resource → Bool
  dist : Int → Int → Resource → Option Int

/-- Try-body of `DatabaseSearchFallback.text_search` (search.py:43-92): the
counter increment comes first and raises; the remaining statements — filter
the active records, apply the full-text restriction when the query string is
non-empty, apply the filter dict, paginate, and compute the facet
aggregations over the unfiltered active set
`TouristicResource.objects.filter(is_active=True)` (lines 79-81) — are
translated faithfully but are unreachable in the source. -/
def DatabaseSearchFallback.text_search_body (env : FallbackEnv) (query : String)
    (filters : Option Filters) (page page_size : Nat) : Except String Resp := do
  let _ ← ApplicationMetrics.increment_counter "search.fallback.text_search.calls" 1
  let resources ← env.resources
  let queryset := resources.filter (fun r => r.is_active)
  let queryset := if query ≠ "" then queryset.filter (env.text_match query) else queryset
  let queryset := match filters with
    | some f => apply_filters queryset f
    | none => queryset
  let total := queryset.length
  let start := (page - 1) * page_size
  let results := (queryset.drop start).take page_size
  let hits := results.map (fun r => format_database_hit r none)
  let aggregations := calculate_aggregations (resources.filter (fun r => r.is_active))
  let resp : Resp :=
    { hits := hits, total := total, took := 0, aggregations := aggregations,
      page := page, page_size := page_size, fallback := true, source := .database }
  pure resp

/-- Except-handler of `DatabaseSearchFallback.text_search` (search.py:94-107):
it increments the error counter — which raises `AttributeError` again — so
the empty error-carrying result dict of lines 97-107 is never returned. -/
def DatabaseSearchFallback.text_search_handler (e : String) (page page_size : Nat) :
    Except String Resp := do
  let _ ← ApplicationMetrics.increment_counter "search.fallback.text_search.errors" 1
  let resp : Resp :=
    { hits := [], total := 0, took := 0, aggregations := ⟨[], []⟩,
      page := page, page_size := page_size, error := some e,
      fallback := true, source := .database }
  pure resp

/-- `DatabaseSearchFallback.text_search`: the try-body with its catch-all
except handler. -/
def DatabaseSearchFallback.text_search (env : FallbackEnv) (query : String)
    (filters : Option Filters) (page page_size : Nat) : Except String Resp :=
  match DatabaseSearchFallback.text_search_body env query filters page page_size with
  | .ok r => .ok r
  | .error e => DatabaseSearchFallback.text_search_handler e page page_size

/-- Try-body of `DatabaseSearchFallback.geo_search` (search.py:129-173):
counter increment first (raises); then restrict to active records within the
radius (records without a location are excluded), order by ascending
distance, apply the filter dict, paginate, and aggregate over the filtered
queryset — all unreachable in the source. -/
def DatabaseSearchFallback.geo_search_body (env : FallbackEnv) (lat lng radius_km : Int)
    (filters : Option Filters) (page page_size : Nat) : Except String Resp := do
  let _ ← ApplicationMetrics.increment_counter "search.fallback.geo_search.calls" 1
  let resources ← env.resources
  let queryset := resources.filter (fun r =>
    r.is_active && match env.dist lat lng r with
      | some d => d ≤ radius_km
      | none => false)
  let queryset := queryset.insertionSort (fun r1 r2 =>
    (env.dist lat lng r1).getD 0 ≤ (env.dist lat lng r2).getD 0)
  let queryset := match filters with
    | some f => apply_filters queryset f
    | none => queryset
  let total := queryset.length
  let start := (page - 1) * page_size
  let results := (queryset.drop start).take page_size
  let hits := results.map (fun r => format_database_hit r (env.dist lat lng r))
  let aggregations := calculate_aggregations queryset
  let resp : Resp :=
    { hits := hits, total := total, took := 0, aggregations := aggregations,
      page := page, page_size := page_size, center := some (lat, lng),
      radius_km := some radius_km, fallback := true, source := .database }
  pure resp

/-- Except-handler of `DatabaseSearchFallback.geo_search` (search.py:175-188):
increments the error counter, which raises again; its error dict (which has
no `center`/`radius_km` keys) is never returned. -/
def DatabaseSearchFallback.geo_search_handler (e : String) (page page_size : Nat) :
    Except String Resp := do
  let _ ← ApplicationMetrics.increment_counter "search.fallback.geo_search.errors" 1
  let resp : Resp :=
    { hits := [], total := 0, took := 0, aggregations := ⟨[], []⟩,
      page := page, page_size := page_size, error := some e,
      fallback := true, source := .database }
  pure resp

/-- `DatabaseSearchFallback.geo_search`: try-body plus catch-all handler. -/
def DatabaseSearchFallback.geo_search (env : FallbackEnv) (lat lng radius_km : Int)
    (filters : Option Filters) (page page_size : Nat) : Except String Resp :=
  match DatabaseSearchFallback.geo_search_body env lat lng radius_km filters page page_size with
  | .ok r => .ok r
  | .error e => DatabaseSearchFallback.geo_search_handler e page page_size

/-- The closure `_elasticsearch_search` (search.py:289-348): the
Elasticsearch round-trip and result formatting are abstracted as the
parameter `primary`; after a successful round-trip the closure increments
the success counter (line 345) — which raises `AttributeError` inside the
breaker-protected call, before `record_search_operation` (which exists) and
the `return` are reached. -/
def SearchService.elasticsearch_text_search (primary : Except String Resp) :
    Except String Resp := do
  let r ← primary
  let _ ← ApplicationMetrics.increment_counter "search.elasticsearch.text_search.success" 1
  let _ ← ApplicationMetrics.record_search_operation "text" r.total r.took
  pure r

/-- Except-handler of `SearchService.text_search` (search.py:353-358): log
the caught error `e`, increment the failure counter — which raises
`AttributeError`, so the fallback invocation at line 358 is unreachable. -/
def SearchService.text_search_handler (_e : String) (env : FallbackEnv) (query : String)
    (filters : Option Filters) (page page_size : Nat) : Except String Resp := do
  let _ ← ApplicationMetrics.increment_counter "search.elasticsearch.text_search.failures" 1
  DatabaseSearchFallback.text_search env query filters page page_size

/-- `SearchService.text_search` (search.py:264-358): the try block opens by
incrementing the attempts counter (line 284) — which raises, so the breaker
is never obtained and the closure never runs; the handler then raises again.
The dead remainder is translated faithfully: run the closure under the
shared breaker (every error is an expected failure since the elasticsearch
breaker is configured with `expected_exception=Exception`); a `returned`
result is passed through, any raise — breaker rejection or closure error —
goes to the handler. -/
def SearchService.text_search (b : CircuitBreaker) (now : Int)
    (primary : Except String Resp) (env : FallbackEnv) (query : String)
    (filters : Option Filters) (page page_size : Nat) :
    CircuitBreaker × Except String Resp :=
  match ApplicationMetrics.increment_counter "search.elasticsearch.text_search.attempts" 1 with
  | .error e => (b, SearchService.text_search_handler e env query filters page page_size)
  | .ok _ =>
    let closure := SearchService.elasticsearch_text_search primary
    let outcome := match closure with
      | .ok _ => Outcome.success
      | .error _ => Outcome.expectedFailure
    match b.call now outcome, closure with
    | (b1, .returned), .ok r => (b1, .ok r)
    | (b1, _), .ok _ =>
      (b1, SearchService.text_search_handler "CircuitBreakerError" env query filters
        page page_size)
    | (b1, _), .error e =>
      (b1, SearchService.text_search_handler e env query filters page page_size)

/-- The closure `_elasticsearch_geo_search` (search.py:387-441), same shape
as the text closure: the success-counter increment at line 438 raises. -/
def SearchService.elasticsearch_geo_search (primary : Except String Resp) :
    Except String Resp := do
  let r ← primary
  let _ ← ApplicationMetrics.increment_counter "search.elasticsearch.geo_search.success" 1
  let _ ← ApplicationMetrics.record_search_operation "geo" r.total r.took
  pure r

/-- Except-handler of `SearchService.geo_search` (search.py:446-451): the
failure-counter increment raises, so the fallback invocation at line 451 is
unreachable. -/
def SearchService.geo_search_handler (_e : String) (env : FallbackEnv)
    (lat lng radius_km : Int) (filters : Option Filters) (page page_size : Nat) :
    Except String Resp := do
  let _ ← ApplicationMetrics.increment_counter "search.elasticsearch.geo_search.failures" 1
  DatabaseSearchFallback.geo_search env lat lng radius_km filters page page_size

/-- `SearchService.geo_search` (search.py:360-451), same shape as
`SearchService.text_search`: the attempts counter at line 382 raises first. -/
def SearchService.geo_search (b : CircuitBreaker) (now : Int)
    (primary : Except String Resp) (env : FallbackEnv) (lat lng radius_km : Int)
    (filters : Option Filters) (page page_size : Nat) :
    CircuitBreaker × Except String Resp :=
  match ApplicationMetrics.increment_counter "search.elasticsearch.geo_search.attempts" 1 with
  | .error e =>
    (b, SearchService.geo_search_handler e env lat lng radius_km filters page page_size)
  | .ok _ =>
    let closure := SearchService.elasticsearch_geo_search primary
    let outcome := match closure with
      | .ok _ => Outcome.success
      | .error _ => Outcome.expectedFailure
    match b.call now outcome, closure with
    | (b1, .returned), .ok r => (b1, .ok r)
    | (b1, _), .ok _ =>
      (b1, SearchService.geo_search_handler "CircuitBreakerError" env lat lng radius_km
        filters page page_size)
    | (b1, _), .error e =>
      (b1, SearchService.geo_search_handler e env lat lng radius_km filters page page_size)

/-!
Cache layer (src/tourism/cache.py). Argument values are modelled as a small
JSON-like type (scalar positional and keyword arguments); `json.dumps` with
its default separators is reproduced on that type. The md5 digest of
`hashlib` is an external library primitive; it is modelled as an arbitrary
deterministic function into the space of 16 hex digits (the code truncates
the hex digest with `[:16]`), passed as a parameter `h` so that every
theorem below holds for any such function.
-/

/-- JSON-serialisable argument values for cache key derivation. -/
inductive Value where
  | vstr (s : String)
  | vint (n : Int)
  | vbool (b : Bool)
deriving DecidableEq

/-- `json.dumps` of one scalar value (string escaping elided: the modelled
argument strings contain no characters needing escapes). -/
def serializeValue : Value → String
  | .vstr s => "\x22" ++ s ++ "\x22"
  | .vint n => toString n
  | .vbool b => if b then "true" else "false"

/-- Join serialized elements with the default `json.dumps` separator. -/
def joinComma : List String → String
  | [] => ""
  | [s] => s
  | s :: rest => s ++ ", " ++ joinComma rest

/-- `json.dumps` of the positional-argument tuple. -/
def serializeArgs (args : List Value) : String :=
  "[" ++ joinComma (args.map serializeValue) ++ "]"

/-- `json.dumps` of one `(key, value)` item of the kwargs dict. -/
def serializePair (p : String × Value) : String :=
  "[\x22" ++ p.1 ++ "\x22, " ++ serializeValue p.2 ++ "]"

/-- Comparison of kwargs items by key, as used by `sorted(kwargs.items())`
(dict keys are unique, so the tuple comparison never reaches the values). -/
def kwLe (a b : String × Value) : Prop := a.1 ≤ b.1

instance : DecidableRel kwLe := fun a b => inferInstanceAs (Decidable (a.1 ≤ b.1))

instance : IsTotal (String × Value) kwLe := ⟨fun a b => le_total a.1 b.1⟩

instance : IsTrans (String × Value) kwLe := ⟨fun _ _ _ h1 h2 => le_trans h1 h2⟩

/-- `sorted(kwargs.items())`, modelled with a stable sort on the
insertion-ordered item list (Python `sorted` is stable). -/
def sortedItems (kwargs : List (String × Value)) : List (String × Value) :=
  kwargs.insertionSort kwLe

/-- `json.dumps` of the `kwargs` slot: the sorted item list, or the empty
dict `\x7b\x7d` when no keyword arguments were passed. -/
def serializeKwargs (kwargs : List (String × Value)) : String :=
  if kwargs.isEmpty then "\x7b\x7d"
  else "[" ++ joinComma ((sortedItems kwargs).map serializePair) ++ "]"

/-- The canonical `key_string` serialized in `CacheService.generate_key`
(`sort_keys=True` puts `args` before `kwargs`). -/
def keyString (args : List Value) (kwargs : List (String × Value)) : String :=
  "\x7b\x22args\x22: " ++ serializeArgs args ++ ", \x22kwargs\x22: "
    ++ serializeKwargs kwargs ++ "\x7d"

/-- One lowercase hex digit. -/
def hexDigit (d : Nat) : Char :=
  if d < 10 then Char.ofNat (48 + d) else Char.ofNat (87 + d)

/-- Fixed-width 16-hex-digit rendering of a truncated digest, mirroring
`hexdigest()[:16]` (the hex digest is always zero-padded to full width). -/
def hexPad16 (n : Fin (16 ^ 16)) : String :=
  String.mk ((List.range 16).map (fun i => hexDigit (n.val / 16 ^ (15 - i) % 16)))

/-- The `PREFIXES` dict of `CacheService`. -/
def KEY_TAGS : String → Option String
  | "resource" => some "res"
  | "list" => some "list"
  | "search" => some "search"
  | "nearby" => some "nearby"
  | "analytics" => some "analytics"
  | "api" => some "api"
  | _ => none

/-- Modelled from the spec: `hashlib.md5` is an external library primitive
(the repository only calls it); the spec asks for a deterministic
low-collision hash truncated to a fixed short length. Modelled as a concrete
deterministic function into the 16-hex-digit space; the theorems below are
also stated over an arbitrary such function. -/
def mdHash (s : String) : Fin (16 ^ 16) :=
  ⟨(s.data.foldl (fun acc c => acc * 1000003 + c.toNat) 7) % 16 ^ 16,
    Nat.mod_lt _ (by norm_num)⟩

/-- `CacheService.generate_key`, parametric in the digest function `h`. -/
def generate_key (h : String → Fin (16 ^ 16)) (category : String)
    (args : List Value) (kwargs : List (String × Value)) : String :=
  ((KEY_TAGS category).getD category) ++ ":" ++ hexPad16 (h (keyString args kwargs))

/-- A cache backend key slot: distinguishes a missing key from a stored
value, where the stored payload may itself be Python `None`
(modelled as `stored none`). -/
inductive StoreEntry (V : Type) where
  | absent
  | stored (v : Option V)
deriving DecidableEq

/-- The Django `cache.get(key)` contract with its implicit `default=None`:
a missing key and a stored `None` both come back as `None`. -/
def django_cache_get {V : Type} (store : String → StoreEntry V) (k : String) : Option V :=
  match store k with
  | .absent => none
  | .stored v => v

/-- `CacheService.get`: derive the key, ask the backend, and swallow any
backend exception into a `None` result. The Lean type is total because the
Python body catches every exception around the backend call. -/
def CacheService.get {V : Type} (backend : String → Except String (Option V))
    (h : String → Fin (16 ^ 16)) (category : String) (args : List Value)
    (kwargs : List (String × Value)) : Option V :=
  let key := generate_key h category args kwargs
  match backend key with
  | .ok v => v
  | .error _ => none

/-! Helper lemmas about the breaker state machine. -/

/-- One expected failure from CLOSED below the threshold: stay CLOSED and
count it. -/
theorem failStep_closed_lt (b : CircuitBreaker) (t : Int) (h : b.state = .closed)
    (hlt : b.failure_count + 1 < b.failure_threshold) :
    (b.call t .expectedFailure).1.state = .closed ∧
      (b.call t .expectedFailure).1.failure_count = b.failure_count + 1 ∧
      (b.call t .expectedFailure).1.failure_threshold = b.failure_threshold := by
  simp only [CircuitBreaker.call, CircuitBreaker.admission, CircuitBreaker.on_failure, h]
  have : ¬ b.failure_threshold ≤ b.failure_count + 1 := by omega
  simp [this]

/-- One expected failure from CLOSED reaching the threshold opens the
breaker. -/
theorem failStep_closed_ge (b : CircuitBreaker) (t : Int) (h : b.state = .closed)
    (hge : b.failure_threshold ≤ b.failure_count + 1) :
    (b.call t .expectedFailure).1.state = .opened := by
  simp [CircuitBreaker.call, CircuitBreaker.admission, CircuitBreaker.on_failure, h, hge]

/-- A run of expected failures that stays strictly below the threshold keeps
the breaker CLOSED and counts every failure. -/
theorem failSeq_closed (ts : List Int) : ∀ b : CircuitBreaker, b.state = .closed →
    b.failure_count + ts.length < b.failure_threshold →
    (b.failSeq ts).state = .closed ∧
      (b.failSeq ts).failure_count = b.failure_count + ts.length ∧
      (b.failSeq ts).failure_threshold = b.failure_threshold := by
  induction ts with
  | nil => intro b h _; simpa [CircuitBreaker.failSeq] using h
  | cons t ts ih =>
    intro b h hlt
    have hstep := failStep_closed_lt b t h (by simp at hlt; omega)
    have hfold : b.failSeq (t :: ts) = ((b.call t .expectedFailure).1).failSeq ts := by
      simp [CircuitBreaker.failSeq]
    obtain ⟨h1, h2, h3⟩ := hstep
    have := ih _ h1 (by simp at hlt ⊢; omega)
    rw [hfold]
    refine ⟨this.1, ?_, ?_⟩
    · rw [this.2.1, h2]; simp; omega
    · rw [this.2.2, h3]

/-- `failSeq` distributes over list append. -/
theorem failSeq_append (b : CircuitBreaker) (l1 l2 : List Int) :
    b.failSeq (l1 ++ l2) = (b.failSeq l1).failSeq l2 := by
  simp [CircuitBreaker.failSeq, List.foldl_append]

/-- C1: with `failureThreshold = N` (N at least 1), starting CLOSED with a
zeroed failure count, N consecutive expected-failure calls leave the breaker
OPEN, while N-1 such calls leave it CLOSED. -/
theorem C1_threshold_trip (N : Nat) (R : Int) (ts tsPrev : List Int)
    (hN : 1 ≤ N) (hts : ts.length = N) (hprev : tsPrev.length = N - 1) :
    ((CircuitBreaker.init N R).failSeq ts).state = .opened ∧
      ((CircuitBreaker.init N R).failSeq tsPrev).state = .closed := by
  constructor
  · have hne : ts ≠ [] := by
      intro hmt; rw [hmt] at hts; simp at hts; omega
    have hdecomp := List.dropLast_append_getLast hne
    rw [← hdecomp, failSeq_append]
    have hlen : ts.dropLast.length = N - 1 := by
      rw [List.length_dropLast, hts]
    have hclosed := failSeq_closed ts.dropLast (CircuitBreaker.init N R)
      (by rfl) (by simp [CircuitBreaker.init, hlen]; omega)
    obtain ⟨h1, h2, h3⟩ := hclosed
    have hopen := failStep_closed_ge _ (ts.getLast hne) h1
      (by rw [h2, h3]; simp [CircuitBreaker.init]; omega)
    simpa [CircuitBreaker.failSeq] using hopen
  · exact (failSeq_closed tsPrev (CircuitBreaker.init N R) (by rfl)
      (by simp [CircuitBreaker.init, hprev]; omega)).1

/-- Witness for C1 at N = 3 with failures at t = 0, 1, 2. -/
theorem C1_threshold_trip_witness :
    ((CircuitBreaker.init 3 60).failSeq [0, 1, 2]).state = .opened ∧
      ((CircuitBreaker.init 3 60).failSeq [0, 1]).state = .closed :=
  C1_threshold_trip 3 60 [0, 1, 2] [0, 1] (by decide) (by decide) (by decide)

/-- C2: from OPEN with `lastFailureTime = T0`, a call strictly before
`T0 + recoveryTimeout` is rejected with the breaker-open error and the
callable is never invoked; a call at or after that instant is admitted with
the breaker moved to HALF_OPEN and the callable invoked exactly once. -/
theorem C2_lazy_recovery (b : CircuitBreaker) (t0 now : Int) (o : Outcome)
    (hs : b.state = .opened) (hl : b.last_failure_time = some t0) :
    (now < t0 + b.recovery_timeout →
      (b.call now o).2 = .rejected ∧ ((b.call now o).2).invocations = 0 ∧
        (b.call now o).1.state = .opened) ∧
    (t0 + b.recovery_timeout ≤ now →
      (b.admission now).2 = true ∧ (b.admission now).1.state = .halfOpen ∧
        ((b.call now o).2).invocations = 1) := by
  constructor
  · intro hbefore
    have hno : ¬ b.recovery_timeout ≤ now - t0 := by omega
    simp [CircuitBreaker.call, CircuitBreaker.admission,
      CircuitBreaker.should_attempt_reset, hs, hl, hno, CallResult.invocations]
  · intro hafter
    have hyes : b.recovery_timeout ≤ now - t0 := by omega
    refine ⟨?_, ?_, ?_⟩
    · simp [CircuitBreaker.admission, CircuitBreaker.should_attempt_reset, hs, hl, hyes]
    · simp [CircuitBreaker.admission, CircuitBreaker.should_attempt_reset, hs, hl, hyes]
    · cases o <;> simp [CircuitBreaker.call, CircuitBreaker.admission,
        CircuitBreaker.should_attempt_reset, hs, hl, hyes, CallResult.invocations]

/-- Witness for C2: OPEN breaker with T0 = 0, R = 60, calls at t = 30
(rejected) and t = 61 (admitted, trial invoked once). -/
theorem C2_lazy_recovery_witness :
    (let b : CircuitBreaker :=
      { failure_threshold := 3, recovery_timeout := 60, failure_count := 3,
        last_failure_time := some 0, state := .opened, success_count := 0,
        total_calls := 3 }
     (b.call 30 .success).2 = .rejected ∧
      (b.admission 61).1.state = .halfOpen ∧ ((b.call 61 .success).2).invocations = 1) := by
  refine ⟨((C2_lazy_recovery _ 0 30 .success rfl rfl).1 (by decide)).1, ?_, ?_⟩
  · exact ((C2_lazy_recovery _ 0 61 .success rfl rfl).2 (by decide)).2.1
  · exact ((C2_lazy_recovery _ 0 61 .success rfl rfl).2 (by decide)).2.2

/-- C3: bookkeeping of admitted calls — a HALF_OPEN success closes the
breaker and zeroes the failure count, a HALF_OPEN expected failure reopens
it and stamps `lastFailureTime`, and a CLOSED success below the threshold
resets the count while staying CLOSED. -/
theorem C3_transition_table (b : CircuitBreaker) (now : Int) :
    (b.state = .halfOpen →
      (b.call now .success).1.state = .closed ∧
        (b.call now .success).1.failure_count = 0) ∧
    (b.state = .halfOpen →
      (b.call now .expectedFailure).1.state = .opened ∧
        (b.call now .expectedFailure).1.last_failure_time = some now) ∧
    (b.state = .closed → b.failure_count < b.failure_threshold →
      (b.call now .success).1.state = .closed ∧
        (b.call now .success).1.failure_count = 0) := by
  refine ⟨?_, ?_, ?_⟩
  · intro h
    simp [CircuitBreaker.call, CircuitBreaker.admission, CircuitBreaker.on_success, h]
  · intro h
    simp [CircuitBreaker.call, CircuitBreaker.admission, CircuitBreaker.on_failure, h]
  · intro h _
    simp [CircuitBreaker.call, CircuitBreaker.admission, CircuitBreaker.on_success, h]

/-- Witness for C3 on a concrete HALF_OPEN breaker and a concrete CLOSED
breaker with one recorded failure. -/
theorem C3_transition_table_witness :
    (let bh : CircuitBreaker :=
      { failure_threshold := 3, recovery_timeout := 60, failure_count := 3,
        last_failure_time := some 0, state := .halfOpen, success_count := 0,
        total_calls := 4 }
     let bc : CircuitBreaker :=
      { failure_threshold := 3, recovery_timeout := 60, failure_count := 1,
        last_failure_time := some 0, state := .closed, success_count := 0,
        total_calls := 1 }
     ((bh.call 70 .success).1.state = .closed ∧
        (bh.call 70 .success).1.failure_count = 0) ∧
      ((bh.call 70 .expectedFailure).1.state = .opened ∧
        (bh.call 70 .expectedFailure).1.last_failure_time = some 70) ∧
      ((bc.call 5 .success).1.state = .closed ∧
        (bc.call 5 .success).1.failure_count = 0)) := by
  refine ⟨(C3_transition_table _ 70).1 rfl, (C3_transition_table _ 70).2.1 rfl,
    (C3_transition_table _ 5).2.2 rfl (by decide)⟩

/-- The OPEN breaker used to refute C4: recovery is due at the call time. -/
def cexBreaker : CircuitBreaker where
  failure_threshold := 3
  recovery_timeout := 5
  failure_count := 1
  last_failure_time := some 0
  state := .opened
  success_count := 0
  total_calls := 1

/-- C4 counterexample: a call whose wrapped callable raises a non-expected
exception does change the state when the breaker is OPEN and past its
recovery timeout — admission moves it to HALF_OPEN before the callable
runs, and the unexpected error leaves it there. -/
theorem C4_counterexample :
    cexBreaker.state = .opened ∧
      (cexBreaker.call 10 .unexpectedFailure).2 = .raisedUnexpected ∧
      (cexBreaker.call 10 .unexpectedFailure).1.state = .halfOpen ∧
      (cexBreaker.call 10 .unexpectedFailure).1.state ≠ cexBreaker.state := by
  decide

/-- One unexpected-error call from a non-OPEN breaker propagates the error
and only bumps `total_calls`. -/
theorem unexpectedStep (b : CircuitBreaker) (t : Int) (h : b.state ≠ .opened) :
    (b.call t .unexpectedFailure).2 = .raisedUnexpected ∧
      (b.call t .unexpectedFailure).1 = { b with total_calls := b.total_calls + 1 } := by
  cases hs : b.state with
  | opened => exact absurd hs h
  | closed => simp [CircuitBreaker.call, CircuitBreaker.admission, hs]
  | halfOpen => simp [CircuitBreaker.call, CircuitBreaker.admission, hs]

/-- C4 amended: as long as the breaker is not OPEN, unexpected errors are
propagated and leave `state`, `failureCount` and `lastFailureTime`
untouched, no matter how many occur in sequence (an OPEN breaker eligible
for recovery is instead moved to HALF_OPEN by admission, as the
counterexample shows). -/
theorem C4_amended (b : CircuitBreaker) (now : Int) (ts : List Int)
    (h : b.state ≠ .opened) :
    (b.call now .unexpectedFailure).2 = .raisedUnexpected ∧
      (b.unexpectedSeq ts).state = b.state ∧
      (b.unexpectedSeq ts).failure_count = b.failure_count ∧
      (b.unexpectedSeq ts).last_failure_time = b.last_failure_time := by
  refine ⟨(unexpectedStep b now h).1, ?_⟩
  induction ts generalizing b with
  | nil => simp [CircuitBreaker.unexpectedSeq]
  | cons t ts ih =>
    have hstep := (unexpectedStep b t h).2
    have hfold : b.unexpectedSeq (t :: ts) =
        ((b.call t .unexpectedFailure).1).unexpectedSeq ts := by
      simp [CircuitBreaker.unexpectedSeq]
    rw [hfold, hstep]
    exact ih _ (by simpa using h)

/-- Witness for C4 amended: a CLOSED breaker is untouched by three
unexpected errors. -/
theorem C4_amended_witness :
    (let b : CircuitBreaker :=
      { failure_threshold := 3, recovery_timeout := 60, failure_count := 1,
        last_failure_time := some 0, state := .closed, success_count := 2,
        total_calls := 3 }
     (b.call 5 .unexpectedFailure).2 = .raisedUnexpected ∧
      (b.unexpectedSeq [5, 6, 7]).state = .closed ∧
      (b.unexpectedSeq [5, 6, 7]).failure_count = 1 ∧
      (b.unexpectedSeq [5, 6, 7]).last_failure_time = some 0) :=
  C4_amended _ 5 [5, 6, 7] (by decide)

/-- The invariant claimed by C9. -/
def BreakerInv (b : CircuitBreaker) : Prop :=
  b.state = .opened → b.last_failure_time ≠ none

/-- Every public operation preserves the invariant. -/
theorem BreakerInv_applyOp (b : CircuitBreaker) (op : BreakerOp) (h : BreakerInv b) :
    BreakerInv (b.applyOp op) := by
  cases op with
  | reset => intro hc; simp [CircuitBreaker.applyOp, CircuitBreaker.reset] at hc
  | force_open now =>
    intro _; simp [CircuitBreaker.applyOp, CircuitBreaker.force_open]
  | call now o =>
    cases hs : b.state with
    | closed =>
      cases o <;>
        · simp [CircuitBreaker.applyOp, CircuitBreaker.call, CircuitBreaker.admission,
            CircuitBreaker.on_success, CircuitBreaker.on_failure, hs, BreakerInv]
          try (split <;> simp_all [BreakerInv])
    | halfOpen =>
      cases o <;>
        simp [CircuitBreaker.applyOp, CircuitBreaker.call, CircuitBreaker.admission,
          CircuitBreaker.on_success, CircuitBreaker.on_failure, hs, BreakerInv]
    | opened =>
      have hlf := h hs
      obtain ⟨t, ht⟩ := Option.ne_none_iff_exists'.mp hlf
      by_cases hr : b.recovery_timeout ≤ now - t
      · cases o <;>
          simp [CircuitBreaker.applyOp, CircuitBreaker.call, CircuitBreaker.admission,
            CircuitBreaker.should_attempt_reset, CircuitBreaker.on_success,
            CircuitBreaker.on_failure, hs, ht, hr, BreakerInv]
      · intro _
        simp [CircuitBreaker.applyOp, CircuitBreaker.call, CircuitBreaker.admission,
          CircuitBreaker.should_attempt_reset, hs, ht, hr]

/-- The invariant holds after any operation sequence from the initial state. -/
theorem BreakerInv_runOps (ops : List BreakerOp) :
    ∀ b : CircuitBreaker, BreakerInv b → BreakerInv (b.runOps ops) := by
  induction ops with
  | nil => intro b h; simpa [CircuitBreaker.runOps] using h
  | cons op ops ih =>
    intro b h
    have hfold : b.runOps (op :: ops) = (b.applyOp op).runOps ops := by
      simp [CircuitBreaker.runOps]
    rw [hfold]
    exact ih _ (BreakerInv_applyOp b op h)

/-- C9: in every state reachable from a fresh breaker by `call`, `reset` and
`force_open`, being OPEN implies a recorded `lastFailureTime`. -/
theorem C9_open_has_failure_time (N : Nat) (R : Int) (ops : List BreakerOp)
    (h : ((CircuitBreaker.init N R).runOps ops).state = .opened) :
    ((CircuitBreaker.init N R).runOps ops).last_failure_time ≠ none :=
  BreakerInv_runOps ops (CircuitBreaker.init N R) (fun hc => by
    simp [CircuitBreaker.init] at hc) h

/-- Witness for C9: a reachable OPEN state (via `force_open` at t = 5) has a
non-nil failure time. -/
theorem C9_open_has_failure_time_witness :
    ((CircuitBreaker.init 3 60).runOps [BreakerOp.force_open 5]).last_failure_time ≠ none :=
  C9_open_has_failure_time 3 60 [BreakerOp.force_open 5] (by decide)

/-!
Orchestrator claims. The load-bearing fact, modelled faithfully above: every
`ApplicationMetrics.increment_counter` call raises `AttributeError`, and such
a call opens every try block of the search layer and every one of its except
handlers, so each search function raises before doing any other work.
-/

/-- Active records for the C6 evaluation: both are active, only the first
matches the `resource_types` filter. -/
def cexResourceA : Resource :=
  { resource_id := 1, city := some "X", resource_types := ["A"], is_active := true,
    creation_date := 0 }

def cexResourceB : Resource :=
  { resource_id := 2, city := some "Y", resource_types := ["B"], is_active := true,
    creation_date := 0 }

def cexFilters : Filters := { resource_types := some ["A"] }

def cexEnv : FallbackEnv :=
  { resources := .ok [cexResourceA, cexResourceB], text_match := fun _ _ => true,
    dist := fun _ _ _ => none }

/-- A fallback environment whose durable-store read itself raises. -/
def failEnv : FallbackEnv :=
  { resources := .error "boom", text_match := fun _ _ => true,
    dist := fun _ _ _ => none }

/-- C5 (code-bug evaluation): every orchestrated text or geo search raises
`AttributeError` — the counter increment at search.py:284/382 is the first
statement of the try block and raises, the except handler raises again at
search.py:355/448 before the fallback invocation at line 358/451, so the
breaker is never consulted, the fallback engine is never invoked, and the
caller never receives a fallback-tagged result: the primary failure (indeed
every request) surfaces to the caller as an error, contradicting the claim
and the spec. The breaker state is returned unchanged. -/
theorem C5_code_bug_always_raises (b : CircuitBreaker) (now : Int)
    (primary : Except String Resp) (env : FallbackEnv) (query : String)
    (filters : Option Filters) (page page_size : Nat) (lat lng radius_km : Int) :
    SearchService.text_search b now primary env query filters page page_size =
      (b, .error attrErrorMsg) ∧
    SearchService.geo_search b now primary env lat lng radius_km filters
        page page_size =
      (b, .error attrErrorMsg) :=
  ⟨rfl, rfl⟩

/-- C6 (code-bug evaluation): at the concrete failing input — an empty
query with a `resource_types` filter over two active records — the fallback
text search raises `AttributeError` at search.py:44 and again at line 96 in
its handler, and the orchestrator raises likewise; no fallback-served
result, and in particular no facet aggregation, ever exists. (The group-by
at lines 79-81, kept in `DatabaseSearchFallback.text_search_body`, is dead
code; it moreover scans all active records instead of the filter-matching
ones.) -/
theorem C6_code_bug_no_aggregations_served :
    DatabaseSearchFallback.text_search cexEnv "" (some cexFilters) 1 20 =
      .error attrErrorMsg ∧
    SearchService.text_search (CircuitBreaker.init 5 60) 0 (.error "es down") cexEnv ""
        (some cexFilters) 1 20 =
      (CircuitBreaker.init 5 60, .error attrErrorMsg) :=
  ⟨rfl, rfl⟩

/-- C7 (code-bug evaluation): with the primary failed and the fallback
durable-store read itself failing, what propagates to the caller is the
metrics `AttributeError` (search.py:355/448; and lines 44/96 and 130/177
inside the fallback engine), not the fallback error "boom": the orchestrator
handler raises before ever invoking the fallback engine, and the fallback
engine, when called directly, raises before its query and again before its
in-band error dict (lines 97-107 and 178-188), which is unreachable. A hard
failure does reach the caller — but it is the same `AttributeError` every
request gets, not the propagated fallback error the claim describes. -/
theorem C7_code_bug_error_replaced :
    DatabaseSearchFallback.text_search failEnv "q" none 1 20 = .error attrErrorMsg ∧
    DatabaseSearchFallback.geo_search failEnv 48 2 10 none 1 20 = .error attrErrorMsg ∧
    SearchService.text_search (CircuitBreaker.init 5 60) 0 (.error "es down") failEnv
        "q" none 1 20 =
      (CircuitBreaker.init 5 60, .error attrErrorMsg) ∧
    SearchService.geo_search (CircuitBreaker.init 5 60) 0 (.error "es down") failEnv
        48 2 10 none 1 20 =
      (CircuitBreaker.init 5 60, .error attrErrorMsg) ∧
    attrErrorMsg ≠ "boom" :=
  ⟨rfl, rfl, rfl, rfl, by decide⟩

/-! Cache key claims. -/

/-- Strict key order on kwargs items. -/
def kwLt (a b : String × Value) : Prop := a.1 < b.1

instance : IsAntisymm (String × Value) kwLt :=
  ⟨fun _ _ h1 h2 => ((lt_asymm h1) h2).elim⟩

/-- A list sorted by key whose keys are distinct is strictly sorted. -/
theorem sorted_kwLt_of_sorted_kwLe (l : List (String × Value))
    (hs : List.Sorted kwLe l) (hnd : (l.map Prod.fst).Nodup) :
    List.Sorted kwLt l := by
  have hne : List.Pairwise (fun a b : String × Value => a.1 ≠ b.1) l :=
    List.pairwise_map.mp hnd
  exact (List.Pairwise.and hs hne).imp (fun hab => lt_of_le_of_ne hab.1 hab.2)

/-- Two insertion-ordered kwargs dicts holding the same entries sort to the
same item list. -/
theorem sortedItems_eq_of_perm (kwA kwB : List (String × Value))
    (hperm : kwA.Perm kwB) (hnd : (kwA.map Prod.fst).Nodup) :
    sortedItems kwA = sortedItems kwB := by
  have hpa : (sortedItems kwA).Perm kwA := List.perm_insertionSort kwLe kwA
  have hpb : (sortedItems kwB).Perm kwB := List.perm_insertionSort kwLe kwB
  have hndB : (kwB.map Prod.fst).Nodup := ((hperm.map Prod.fst).nodup_iff).mp hnd
  have hndA2 : ((sortedItems kwA).map Prod.fst).Nodup :=
    ((hpa.map Prod.fst).nodup_iff).mpr hnd
  have hndB2 : ((sortedItems kwB).map Prod.fst).Nodup :=
    ((hpb.map Prod.fst).nodup_iff).mpr hndB
  exact List.eq_of_perm_of_sorted (hpa.trans (hperm.trans hpb.symm))
    (sorted_kwLt_of_sorted_kwLe _ (List.sorted_insertionSort kwLe kwA) hndA2)
    (sorted_kwLt_of_sorted_kwLe _ (List.sorted_insertionSort kwLe kwB) hndB2)

/-- C8 amended: key derivation is a pure function of the category, the
positional arguments and the SET of kwargs entries — two kwargs dicts with
the same entries in different insertion order derive the identical key, for
every digest function into the 16-hex-digit space. (Distinct argument
values need not give distinct keys: the key keeps only 16 hex digits of the
digest, so collisions exist — the counterexample — and the spec itself only
promises distinctness with overwhelming probability.) -/
theorem C8_amended (h : String → Fin (16 ^ 16)) (category : String)
    (args : List Value) (kwA kwB : List (String × Value)) (hperm : kwA.Perm kwB)
    (hnd : (kwA.map Prod.fst).Nodup) :
    generate_key h category args kwA = generate_key h category args kwB := by
  have hie : kwA.isEmpty = kwB.isEmpty := by
    have hlen := hperm.length_eq
    cases kwA <;> cases kwB <;> simp_all
  unfold generate_key keyString serializeKwargs
  rw [sortedItems_eq_of_perm kwA kwB hperm hnd, hie]

/-- Witness for C8 amended: the same two kwargs entries in both insertion
orders derive the same concrete key. -/
theorem C8_amended_witness :
    generate_key mdHash "search" [] [("b", Value.vint 1), ("a", Value.vint 2)] =
      generate_key mdHash "search" [] [("a", Value.vint 2), ("b", Value.vint 1)] :=
  C8_amended mdHash "search" [] [("b", Value.vint 1), ("a", Value.vint 2)]
    [("a", Value.vint 2), ("b", Value.vint 1)] (by decide) (by decide)

/-- C8 counterexample: the key space is finite (a short tag, a colon and 16
hex digits) while the argument space is not, so two different argument
values share a key — the claim that calls whose argument values differ
always produce different keys is false by pigeonhole. -/
theorem C8_counterexample :
    ∃ a b : Int, a ≠ b ∧
      generate_key mdHash "search" [Value.vint a] [] =
        generate_key mdHash "search" [Value.vint b] [] := by
  obtain ⟨x, y, hxy, hf⟩ :=
    Finite.exists_ne_map_eq_of_infinite
      (fun a : Int => mdHash (keyString [Value.vint a] []))
  refine ⟨x, y, hxy, ?_⟩
  unfold generate_key
  rw [hf]

/-- C10: at the public cache interface a stored None is indistinguishable
from a miss — `CacheService.get` returns `none` when the backend has no
value under the derived key, when the stored payload is itself None, and
when the backend raises; the Python body catches every backend exception,
which is why the modelled `CacheService.get` is a total function (it never
raises for JSON-serialisable arguments). -/
theorem C10_none_indistinguishable {V : Type} (h : String → Fin (16 ^ 16))
    (category : String) (args : List Value) (kwargs : List (String × Value))
    (store : String → StoreEntry V) (backend : String → Except String (Option V))
    (e : String) :
    (store (generate_key h category args kwargs) = .absent →
      CacheService.get (fun k => .ok (django_cache_get store k)) h category args
        kwargs = none) ∧
    (store (generate_key h category args kwargs) = .stored none →
      CacheService.get (fun k => .ok (django_cache_get store k)) h category args
        kwargs = none) ∧
    (backend (generate_key h category args kwargs) = .error e →
      CacheService.get backend h category args kwargs = none) := by
  refine ⟨?_, ?_, ?_⟩
  · intro hs
    simp [CacheService.get, django_cache_get, hs]
  · intro hs
    simp [CacheService.get, django_cache_get, hs]
  · intro hb
    simp [CacheService.get, hb]

/-- Witness for C10 on concrete stores: a missing key, a stored None and a
raising backend all read back as None. -/
theorem C10_none_indistinguishable_witness :
    CacheService.get
        (fun k => .ok (django_cache_get (fun _ => (StoreEntry.absent : StoreEntry Nat)) k))
        mdHash "resource" [Value.vint 42, Value.vstr "fr"] [] = none ∧
      CacheService.get
        (fun k => .ok (django_cache_get
          (fun _ => (StoreEntry.stored none : StoreEntry Nat)) k))
        mdHash "resource" [Value.vint 42, Value.vstr "fr"] [] = none ∧
      CacheService.get (fun _ => (.error "redis down" : Except String (Option Nat)))
        mdHash "resource" [Value.vint 42, Value.vstr "fr"] [] = none :=
  ⟨(C10_none_indistinguishable mdHash "resource" [Value.vint 42, Value.vstr "fr"] []
      (fun _ => (StoreEntry.absent : StoreEntry Nat)) (fun _ => .ok none) "x").1 rfl,
    (C10_none_indistinguishable mdHash "resource" [Value.vint 42, Value.vstr "fr"] []
      (fun _ => (StoreEntry.stored none : StoreEntry Nat)) (fun _ => .ok none) "x").2.1 rfl,
    (C10_none_indistinguishable mdHash "resource" [Value.vint 42, Value.vstr "fr"] []
      (fun _ => (StoreEntry.absent : StoreEntry Nat))
      (fun _ => (.error "redis down" : Except String (Option Nat)))
      "redis down").2.2 rfl⟩

end Tourism
